import Mathlib

/-!
Shallow embedding of the license validation-and-cache engine in
src/licenseManager.ts (class LicenseManager, first definition in the file).

Modelling conventions:
  * Times are epoch milliseconds, represented as Int.
  * The mutable fields of the manager (the stored license key in the secret
    store, and the single cached verdict held both in memory and in
    workspace state, which are always updated together) form `LMState`.
  * One call to the remote validation endpoint is described by a `NetEnv`:
    whether the transport resolves, whether the HTTP status is 2xx, whether
    the body parses as JSON, the parsed body, and the outcome of the RSA
    primitive `verifier.verify` on the canonical payload.  The RSA
    primitive itself is not modelled; its boolean outcome is.
  * JavaScript truthiness is modelled explicitly where the source relies
    on it: an absent or empty license key string is falsy, an absent or
    empty signature string is falsy, an absent or zero timestamp is falsy,
    an absent or empty tier string is falsy.
  * Thrown exceptions are modelled with `Except String`; a try/catch whose
    handler returns normally is the corresponding `match`.
-/

structure ValidationResponse where
  valid : Bool
  tier : Option String := none
  features : Option (List String) := none
  message : Option String := none
  expiresAt : Option String := none
  signature : Option String := none
  timestamp : Option Int := none
deriving DecidableEq

structure CachedValidation where
  response : ValidationResponse
  timestamp : Int
deriving DecidableEq

structure LMState where
  key : Option String
  cache : Option CachedValidation
deriving DecidableEq

structure NetEnv where
  transportOk : Bool
  httpOk : Bool
  jsonOk : Bool
  body : ValidationResponse
  rsaOk : Bool
deriving DecidableEq

def CACHE_DURATION : Int := 24 * 60 * 60 * 1000

def FRESHNESS_WINDOW : Nat := 5 * 60 * 1000

/-- The throwing part of the try block in validateLicense: `fetch` (transport
error rejects), the explicit `throw new Error` on a non-2xx status, and
`response.json()` (parse error rejects). -/
def tryFetchJson (env : NetEnv) : Except String ValidationResponse :=
  if env.transportOk = false then Except.error "network error"
  else if env.httpOk = false then Except.error "Validation failed: non-2xx status"
  else if env.jsonOk = false then Except.error "body did not parse"
  else Except.ok env.body

def fetchFails (env : NetEnv) : Bool :=
  !env.transportOk || !env.httpOk || !env.jsonOk

/-- verifyResponseSignature, lines 315-354: reject when signature or
timestamp is falsy, reject when the timestamp is more than five minutes
from `now`, otherwise the result of the RSA verification primitive (a throw
inside the inner try is caught and returned as false, folded into rsaOk). -/
def verifyResponseSignature (response : ValidationResponse) (now : Int) (rsaOk : Bool) : Bool :=
  match response.signature, response.timestamp with
  | none, _ => false
  | some _, none => false
  | some s, some t =>
    if s.isEmpty || t = 0 then false
    else if FRESHNESS_WINDOW < (now - t).natAbs then false
    else rsaOk

def keyFalsy : Option String → Bool
  | none => true
  | some s => s.isEmpty

/-- The verdict built at lines 205 when no license key is stored. -/
def noKeyResponse : ValidationResponse :=
  { valid := false, tier := some "community", features := some [] }

/-- The verdict built at lines 239-244 when signature verification fails. -/
def invalidResponse : ValidationResponse :=
  { valid := false, tier := some "community", features := some [],
    message := some "License validation failed: Invalid server response" }

/-- The verdict built at lines 262-267 when the network fails and no cache
entry exists. -/
def fallbackResponse : ValidationResponse :=
  { valid := false, tier := some "community", features := some [],
    message := some "Network error - using Community tier" }

def cacheFresh (c : CachedValidation) (now : Int) : Bool :=
  now - c.timestamp < CACHE_DURATION

def cacheIsFresh : Option CachedValidation → Int → Bool
  | some c, now => cacheFresh c now
  | none, _ => false

structure ValidateResult where
  response : ValidationResponse
  state : LMState
  fetched : Bool
deriving DecidableEq

/-- saveCache, lines 295-302. -/
def saveCache (st : LMState) (response : ValidationResponse) (now : Int) : LMState :=
  { st with cache := some { response := response, timestamp := now } }

/-- The body of validateLicense after the cache check, lines 202-269; the
catch starting at line 252 is the `Except.error` branch.  `fetched` records
whether the network call was attempted. -/
def validateAfterCache (st : LMState) (now : Int) (env : NetEnv) : ValidateResult :=
  if keyFalsy st.key then
    { response := noKeyResponse, state := saveCache st noKeyResponse now, fetched := false }
  else
    match tryFetchJson env with
    | Except.ok validationResponse =>
      if validationResponse.valid && !(verifyResponseSignature validationResponse now env.rsaOk) then
        { response := invalidResponse, state := saveCache st invalidResponse now, fetched := true }
      else
        { response := validationResponse, state := saveCache st validationResponse now, fetched := true }
    | Except.error _ =>
      match st.cache with
      | some c => { response := c.response, state := st, fetched := true }
      | none => { response := fallbackResponse, state := st, fetched := true }

/-- validateLicense, lines 193-270, as a total function: the internal catch
handles every throw of the try block, so the call always produces a
verdict. -/
def validateRun (st : LMState) (force : Bool) (now : Int) (env : NetEnv) : ValidateResult :=
  match st.cache with
  | some c =>
    if !force && cacheFresh c now then { response := c.response, state := st, fetched := false }
    else validateAfterCache st now env
  | none => validateAfterCache st now env

/-- A catch-all handler that returns normally: its result is never an
exception. -/
def catchAllE {α : Type} (x : Except String α) (handler : String → α) : Except String α :=
  match x with
  | Except.ok a => Except.ok a
  | Except.error e => Except.ok (handler e)

/-- A catch-all handler at the outermost level of a public entry point. -/
def catchAll {α : Type} (x : Except String α) (handler : String → α) : α :=
  match x with
  | Except.ok a => a
  | Except.error e => handler e

/-- The body of validateLicense after the cache check, with the thrown
exceptions of the try block kept explicit and the catch of line 252 as a
catch-all handler. -/
def validateNetworked (st : LMState) (now : Int) (env : NetEnv) : Except String ValidateResult :=
  if keyFalsy st.key then
    Except.ok { response := noKeyResponse, state := saveCache st noKeyResponse now, fetched := false }
  else
    catchAllE
      (Except.map (fun validationResponse =>
        if validationResponse.valid && !(verifyResponseSignature validationResponse now env.rsaOk) then
          { response := invalidResponse, state := saveCache st invalidResponse now, fetched := true }
        else
          { response := validationResponse, state := saveCache st validationResponse now,
            fetched := true })
        (tryFetchJson env))
      (fun _ =>
        match st.cache with
        | some c => { response := c.response, state := st, fetched := true }
        | none => { response := fallbackResponse, state := st, fetched := true })

/-- validateLicense, lines 193-270, in exception-passing form. -/
def validateLicense (st : LMState) (force : Bool) (now : Int) (env : NetEnv) :
    Except String ValidateResult :=
  match st.cache with
  | some c =>
    if !force && cacheFresh c now then
      Except.ok { response := c.response, state := st, fetched := false }
    else validateNetworked st now env
  | none => validateNetworked st now env

def exceptOk {α : Type} : Except String α → Bool
  | Except.ok _ => true
  | Except.error _ => false

/-- getLicenseKey, lines 48-50; the secret store read is modelled as
reliable. -/
def getLicenseKey (st : LMState) : Option String := st.key

/-- hasProAccess, lines 55-63. -/
def hasProAccess (st : LMState) (now : Int) (env : NetEnv) : Bool :=
  catchAll
    (Except.map (fun r =>
      r.response.valid && (r.response.tier == some "pro" || r.response.tier == some "team"))
      (validateLicense st false now env))
    (fun _ => false)

/-- The tier expression of getLicenseTier, line 71, with the JavaScript
truthiness of `validation.valid && validation.tier` made explicit. -/
def tierOf (response : ValidationResponse) : String :=
  match response.tier with
  | none => "community"
  | some t => if response.valid && !t.isEmpty then t else "community"

/-- getLicenseTier, lines 68-76. -/
def getLicenseTier (st : LMState) (now : Int) (env : NetEnv) : String :=
  catchAll (Except.map (fun r => tierOf r.response) (validateLicense st false now env))
    (fun _ => "community")

/-- getFeatures, lines 81-88. -/
def getFeatures (st : LMState) (now : Int) (env : NetEnv) : List String :=
  catchAll (Except.map (fun r => r.response.features.getD []) (validateLicense st false now env))
    (fun _ => [])

structure LicenseInfo where
  active : Bool
  tier : String
  features : List String
  expiresAt : Option String
deriving DecidableEq

/-- The tier expression of getLicenseInfo, line 169: `validation.tier ||
community`. -/
def tierOrCommunity : Option String → String
  | none => "community"
  | some t => if t.isEmpty then "community" else t

/-- getLicenseInfo, lines 159-180. -/
def getLicenseInfo (st : LMState) (now : Int) (env : NetEnv) : LicenseInfo :=
  catchAll
    (Except.map (fun r =>
      ({ active := r.response.valid, tier := tierOrCommunity r.response.tier,
         features := r.response.features.getD [], expiresAt := r.response.expiresAt } : LicenseInfo))
      (validateLicense st false now env))
    (fun _ => { active := false, tier := "community", features := [], expiresAt := none })

/-- refreshLicense, lines 185-188: clear the cache, then force a
validation; note there is no catch of its own. -/
def refreshLicense (st : LMState) (now : Int) (env : NetEnv) : Except String ValidateResult :=
  validateLicense { st with cache := none } true now env

structure ActivationResult where
  success : Bool
  message : String
deriving DecidableEq

def tierUpper : Option String → String
  | some t => t.toUpper
  | none => "undefined"

/-- activateLicense, lines 93-120: format check, store the key, clear the
cache, force a validation; on a negative verdict remove the key again. -/
def activateLicense (licenseKey : String) (st : LMState) (now : Int) (env : NetEnv) :
    ActivationResult × LMState :=
  catchAll
    (if !(licenseKey.startsWith "ANYRAG-PRO-") then
      Except.ok ({ success := false, message := "Invalid license key format" }, st)
    else
      Except.map (fun r =>
        if r.response.valid then
          ({ success := true,
             message := "License activated successfully! Tier: " ++ tierUpper r.response.tier },
           r.state)
        else
          ({ success := false,
             message := r.response.message.getD "License validation failed" },
           { r.state with key := none }))
        (validateLicense { st with key := some licenseKey, cache := none } true now env))
    (fun e => ({ success := false, message := "Activation failed: " ++ e }, st))

/-- Failure flags for one deactivateLicense run: the seat-release POST
outcome (both of its failure modes are only logged, so it never changes the
resulting state) and the outcomes of the two secret-store delete calls (the
one in the try block at line 147 and the retry in the catch at line 151). -/
structure DeacEnv where
  transportOk : Bool
  httpOk : Bool
  deleteOk : Bool
  retryDeleteOk : Bool
deriving DecidableEq

/-- deactivateLicense, lines 125-154.  The try block performs the
best-effort seat release (failures swallowed), deletes the key and clears
the cache; the catch deletes the key and clears the cache again; a second
delete failure inside the catch propagates. -/
def deactivateLicense (st : LMState) (env : DeacEnv) : Except String LMState :=
  let attempt : Except String LMState :=
    if env.deleteOk then Except.ok { key := none, cache := none }
    else Except.error "secret store delete failed"
  match attempt with
  | Except.ok s => Except.ok s
  | Except.error _ =>
    if env.retryDeleteOk then Except.ok { key := none, cache := none }
    else Except.error "secret store delete failed"

/-- The claim C5 names the value of the offline fallback: the cached
verdict when an entry exists, the community network-error verdict
otherwise. -/
def lastKnownOrFallback : Option CachedValidation → ValidationResponse
  | some c => c.response
  | none => fallbackResponse

/-- A benign concrete network environment used by concrete instances. -/
def env0 : NetEnv :=
  { transportOk := true, httpOk := true, jsonOk := true, body := { valid := false },
    rsaOk := true }

/-- A concrete positive pro verdict used by concrete instances. -/
def proResponse0 : ValidationResponse :=
  { valid := true, tier := some "pro", features := some ["adv"] }

/-- A concrete state with a stored key and a cached positive pro verdict
stamped at time 0. -/
def stC2 : LMState :=
  { key := some "ANYRAG-PRO-C2", cache := some { response := proResponse0, timestamp := 0 } }

/-- A concrete network environment whose transport succeeds, whose body
claims a valid pro license, and whose RSA verification fails. -/
def envC2 : NetEnv :=
  { transportOk := true, httpOk := true, jsonOk := true,
    body := { valid := true, tier := some "pro", features := some ["x"],
              signature := some "c2sig", timestamp := some 86400000 },
    rsaOk := false }

/-- The fetch model succeeds exactly when all three transport flags hold. -/
theorem tryFetchJson_ok (env : NetEnv) (h : fetchFails env = false) :
    tryFetchJson env = Except.ok env.body := by
  unfold tryFetchJson fetchFails at *
  cases ht : env.transportOk <;> cases hh : env.httpOk <;> cases hj : env.jsonOk <;>
    simp_all

/-- When one of the transport flags fails, the fetch model throws. -/
theorem tryFetchJson_error (env : NetEnv) (h : fetchFails env = true) :
    ∃ e, tryFetchJson env = Except.error e := by
  unfold tryFetchJson fetchFails at *
  cases ht : env.transportOk <;> cases hh : env.httpOk <;> cases hj : env.jsonOk <;>
    simp_all

/-- The exception-passing validateLicense always resolves, to the value of
the total model: every throw of the try block is handled by the catch. -/
theorem validateLicense_ok (st : LMState) (force : Bool) (now : Int) (env : NetEnv) :
    validateLicense st force now env = Except.ok (validateRun st force now env) := by
  unfold validateLicense validateRun validateNetworked validateAfterCache catchAllE
  cases hc : st.cache with
  | none =>
    by_cases hk : keyFalsy st.key
    · simp [hk]
    · simp [hk]
      cases hf : tryFetchJson env <;> simp [Except.map, hc]
  | some c =>
    by_cases hfresh : (!force && cacheFresh c now) = true
    · simp [hfresh]
    · simp [hfresh]
      by_cases hk : keyFalsy st.key
      · simp [hk]
      · simp [hk]
        cases hf : tryFetchJson env <;> simp [Except.map, hc]

theorem catchAll_map_ok {α β : Type} (f : α → β) (a : α) (h : String → β) :
    catchAll (Except.map f (Except.ok a)) h = f a := rfl

theorem getLicenseTier_eq (st : LMState) (now : Int) (env : NetEnv) :
    getLicenseTier st now env = tierOf (validateRun st false now env).response := by
  unfold getLicenseTier
  rw [validateLicense_ok]
  rfl

theorem getFeatures_eq (st : LMState) (now : Int) (env : NetEnv) :
    getFeatures st now env = (validateRun st false now env).response.features.getD [] := by
  unfold getFeatures
  rw [validateLicense_ok]
  rfl

theorem hasProAccess_eq (st : LMState) (now : Int) (env : NetEnv) :
    hasProAccess st now env =
      ((validateRun st false now env).response.valid &&
        ((validateRun st false now env).response.tier == some "pro" ||
          (validateRun st false now env).response.tier == some "team")) := by
  unfold hasProAccess
  rw [validateLicense_ok]
  rfl

theorem getLicenseInfo_eq (st : LMState) (now : Int) (env : NetEnv) :
    getLicenseInfo st now env =
      { active := (validateRun st false now env).response.valid,
        tier := tierOrCommunity (validateRun st false now env).response.tier,
        features := (validateRun st false now env).response.features.getD [],
        expiresAt := (validateRun st false now env).response.expiresAt } := by
  unfold getLicenseInfo
  rw [validateLicense_ok]
  rfl

/-- Any run of the post-cache body whose transport attempt can succeed
leaves the cache holding exactly the verdict it returns, stamped `now`. -/
theorem validateAfterCache_saves (st : LMState) (now : Int) (env : NetEnv)
    (h : fetchFails env = false) :
    (validateAfterCache st now env).state.cache =
      some { response := (validateAfterCache st now env).response, timestamp := now } := by
  unfold validateAfterCache
  rw [tryFetchJson_ok env h]
  by_cases hk : keyFalsy st.key
  · simp [hk, saveCache]
  · simp [hk, saveCache]
    split <;> rfl

/-- The post-cache body never changes the stored key. -/
theorem validateAfterCache_key (st : LMState) (now : Int) (env : NetEnv) :
    (validateAfterCache st now env).state.key = st.key := by
  unfold validateAfterCache
  by_cases hk : keyFalsy st.key
  · simp [hk, saveCache]
  · simp [hk]
    cases hf : tryFetchJson env
    · cases hc : st.cache <;> simp
    · by_cases hv :
        ((tryFetchJson env).toOption.getD env.body).valid = true <;>
      simp [saveCache] <;> split <;> rfl

/-- A run of validateLicense that attempted the network is a run of the
post-cache body. -/
theorem validateRun_fetched (st : LMState) (force : Bool) (now : Int) (env : NetEnv)
    (h : (validateRun st force now env).fetched = true) :
    validateRun st force now env = validateAfterCache st now env := by
  unfold validateRun at *
  cases hc : st.cache with
  | none => rfl
  | some c =>
    rw [hc] at h
    by_cases hfresh : (!force && cacheFresh c now) = true
    · simp [hfresh] at h
    · simp [hfresh]

/-- Claim C3 (confirmed): for every response and every current time now
such that the response carries a timestamp more than five minutes from now,
verifyResponseSignature returns false, regardless of whether the RSA
signature over the payload is valid. -/
theorem verify_rejects_stale (response : ValidationResponse) (now t : Int) (rsaOk : Bool)
    (ht : response.timestamp = some t) (hfar : FRESHNESS_WINDOW < (now - t).natAbs) :
    verifyResponseSignature response now rsaOk = false := by
  unfold verifyResponseSignature
  cases hs : response.signature with
  | none => rfl
  | some s =>
    rw [ht]
    by_cases he : (s.isEmpty || t = 0) = true
    · simp [he]
    · simp [he, hfar]

/-- Witness for C3: a concrete response whose timestamp is far from the
clock is rejected even though the RSA primitive would accept it. -/
theorem verify_rejects_stale_witness :
    verifyResponseSignature
      { valid := true, tier := some "pro", signature := some "sig", timestamp := some 1 }
      10000000 true = false :=
  verify_rejects_stale _ 10000000 1 true rfl (by decide)

/-- Counterexample to C1: the server body `valid := false, tier := pro,
features := [x]` skips signature verification, is returned and cached
verbatim, and getFeatures exposes the non-empty feature list, so a verdict
with valid = false, a non-community tier and non-empty features is both
returned and cached. -/
theorem validFalse_counterexample :
    (validateRun { key := some "ANYRAG-PRO-C1", cache := none } false 0
        { transportOk := true, httpOk := true, jsonOk := true,
          body := { valid := false, tier := some "pro", features := some ["x"] },
          rsaOk := true }).response =
      { valid := false, tier := some "pro", features := some ["x"] } ∧
    (validateRun { key := some "ANYRAG-PRO-C1", cache := none } false 0
        { transportOk := true, httpOk := true, jsonOk := true,
          body := { valid := false, tier := some "pro", features := some ["x"] },
          rsaOk := true }).state.cache =
      some { response := { valid := false, tier := some "pro", features := some ["x"] },
             timestamp := 0 } ∧
    getFeatures { key := some "ANYRAG-PRO-C1", cache := none } 0
        { transportOk := true, httpOk := true, jsonOk := true,
          body := { valid := false, tier := some "pro", features := some ["x"] },
          rsaOk := true } = ["x"] := by
  refine ⟨rfl, rfl, ?_⟩
  rw [getFeatures_eq]
  rfl

/-- Claim C1 as amended: the three verdicts the core itself constructs
(no stored key, signature failure, network fallback) all satisfy
valid = false, tier = community, features empty, and getLicenseTier maps
every verdict with valid = false to community; but a server body with
valid = false is returned and cached verbatim, so its tier and features
fields are unconstrained. -/
theorem validFalse_amended (st : LMState) (now : Int) (env : NetEnv) :
    noKeyResponse.valid = false ∧ noKeyResponse.tier = some "community" ∧
    noKeyResponse.features = some [] ∧
    invalidResponse.valid = false ∧ invalidResponse.tier = some "community" ∧
    invalidResponse.features = some [] ∧
    fallbackResponse.valid = false ∧ fallbackResponse.tier = some "community" ∧
    fallbackResponse.features = some [] ∧
    ((validateRun st false now env).response.valid = false →
      getLicenseTier st now env = "community") := by
  refine ⟨rfl, rfl, rfl, rfl, rfl, rfl, rfl, rfl, rfl, ?_⟩
  intro h
  rw [getLicenseTier_eq]
  unfold tierOf
  cases htier : (validateRun st false now env).response.tier with
  | none => rfl
  | some t => simp [h]

/-- Witness for the amended C1 at a concrete input. -/
theorem validFalse_amended_witness :
    getLicenseTier { key := none, cache := none } 0 env0 = "community" :=
  (validFalse_amended { key := none, cache := none } 0 env0).2.2.2.2.2.2.2.2.2 (by decide)

/-- Counterexample to C2, on its message clause: in the scenario of the
claim the verdict written to the cache carries the message
"License validation failed: Invalid server response", which differs from
the message "invalid server response" stated by the claim. -/
theorem authDenial_counterexample :
    (validateRun stC2 false 86400000 envC2).response = invalidResponse ∧
    (validateRun stC2 false 86400000 envC2).state.cache =
      some { response := invalidResponse, timestamp := 86400000 } ∧
    invalidResponse.message ≠ some "invalid server response" := by decide

/-- Claim C2 as amended: for every prior cached positive verdict, a
validate call that reaches the network, whose transport succeeds and whose
body parses with valid = true but whose signature verification fails,
returns the negative community verdict — never the stale cached positive
one — and writes that verdict to the cache; its message is
"License validation failed: Invalid server response". -/
theorem authDenial_overrides_cache (st : LMState) (c : CachedValidation) (k : String)
    (now : Int) (env : NetEnv) (force : Bool)
    (hc : st.cache = some c) (hpos : c.response.valid = true)
    (hk : st.key = some k) (hk2 : k.isEmpty = false)
    (hmiss : force = true ∨ cacheFresh c now = false)
    (hfetch : fetchFails env = false) (hv : env.body.valid = true)
    (hsig : verifyResponseSignature env.body now env.rsaOk = false) :
    validateRun st force now env =
      { response := invalidResponse, state := saveCache st invalidResponse now,
        fetched := true } ∧
    invalidResponse.valid = false ∧ invalidResponse.tier = some "community" ∧
    invalidResponse.message = some "License validation failed: Invalid server response" ∧
    invalidResponse ≠ c.response := by
  have hbranch : validateRun st force now env = validateAfterCache st now env := by
    unfold validateRun
    rw [hc]
    rcases hmiss with hm | hm
    · simp [hm]
    · simp [hm]
  have hkey : keyFalsy st.key = false := by
    rw [hk]
    exact hk2
  have hmain : validateAfterCache st now env =
      { response := invalidResponse, state := saveCache st invalidResponse now,
        fetched := true } := by
    unfold validateAfterCache
    rw [hkey, tryFetchJson_ok env hfetch]
    simp [hv, hsig]
  refine ⟨hbranch.trans hmain, rfl, rfl, rfl, ?_⟩
  intro heq
  rw [← heq] at hpos
  exact absurd hpos (by decide)

/-- Witness for the amended C2 at the concrete counterexample scenario. -/
theorem authDenial_overrides_cache_witness :
    validateRun stC2 false 86400000 envC2 =
      { response := invalidResponse, state := saveCache stC2 invalidResponse 86400000,
        fetched := true } :=
  (authDenial_overrides_cache stC2 { response := proResponse0, timestamp := 0 }
    "ANYRAG-PRO-C2" 86400000 envC2 false rfl rfl rfl (by decide)
    (Or.inr (by decide)) rfl rfl (by decide)).1

/-- Claim C4 (confirmed): in every run in which deactivateLicense
completes — including runs where the seat-release call fails in any way and
runs where the first key removal raises and the retry in the catch
succeeds — the key is removed and the cache is cleared, so the next
validate(false) call returns the freshly built no-key community verdict and
never a cached pro-tier one; moreover whenever the key removal in the try
block succeeds, deactivation completes regardless of the seat-release
outcome. -/
theorem deactivate_clears_state (st st' : LMState) (denv : DeacEnv) (now : Int) (env : NetEnv)
    (hok : deactivateLicense st denv = Except.ok st') :
    st'.key = none ∧ st'.cache = none ∧
    validateRun st' false now env =
      { response := noKeyResponse, state := saveCache st' noKeyResponse now,
        fetched := false } ∧
    noKeyResponse.valid = false ∧ noKeyResponse.tier = some "community" ∧
    (∀ st2 : LMState, ∀ denv2 : DeacEnv, denv2.deleteOk = true →
      deactivateLicense st2 denv2 = Except.ok { key := none, cache := none }) := by
  have hst : st' = { key := none, cache := none } := by
    unfold deactivateLicense at hok
    by_cases hd : denv.deleteOk = true
    · simp [hd] at hok
      exact hok.symm
    · by_cases hr : denv.retryDeleteOk = true <;>
        simp [Bool.not_eq_true] at hd <;> simp [hd, hr] at hok
      exact hok.symm
  subst hst
  refine ⟨rfl, rfl, rfl, rfl, rfl, ?_⟩
  intro st2 denv2 h2
  unfold deactivateLicense
  simp [h2]

/-- Witness for C4 at a concrete state holding a fresh cached pro verdict
before deactivation. -/
theorem deactivate_clears_state_witness :
    validateRun { key := none, cache := none } false 7 env0 =
      { response := noKeyResponse,
        state := saveCache { key := none, cache := none } noKeyResponse 7,
        fetched := false } :=
  (deactivate_clears_state
    { key := some "ANYRAG-PRO-C4", cache := some { response := proResponse0, timestamp := 0 } }
    { key := none, cache := none }
    { transportOk := false, httpOk := false, deleteOk := true, retryDeleteOk := true }
    7 env0 rfl).2.2.1

/-- Claim C5 (confirmed): for every state holding a stored key, a validate
call under a transport failure (transport error, non-2xx status, or
unparsable body) leaves the state — in particular the cachedAt stamp of any
cache entry — completely unchanged and returns the cached verdict when an
entry exists (fresh or stale), and otherwise the negative community verdict
whose message is the network-error message. -/
theorem offline_fallback (st : LMState) (force : Bool) (now : Int) (env : NetEnv) (k : String)
    (hk : st.key = some k) (hk2 : k.isEmpty = false) (hf : fetchFails env = true) :
    (validateRun st force now env).state = st ∧
    (validateRun st force now env).response = lastKnownOrFallback st.cache ∧
    fallbackResponse.message = some "Network error - using Community tier" := by
  have hkey : keyFalsy st.key = false := by
    rw [hk]
    exact hk2
  obtain ⟨e, he⟩ := tryFetchJson_error env hf
  have hbody : validateAfterCache st now env =
      { response := lastKnownOrFallback st.cache, state := st, fetched := true } := by
    unfold validateAfterCache
    rw [hkey, he]
    cases hc : st.cache <;> simp [lastKnownOrFallback]
  cases hcache : st.cache with
  | none =>
    rw [hcache] at hbody
    have hv : validateRun st force now env = validateAfterCache st now env := by
      unfold validateRun
      rw [hcache]
    rw [hv, hbody]
    exact ⟨rfl, rfl, rfl⟩
  | some c =>
    rw [hcache] at hbody
    by_cases hfresh : (!force && cacheFresh c now) = true
    · have hv : validateRun st force now env =
          { response := c.response, state := st, fetched := false } := by
        unfold validateRun
        rw [hcache]
        simp [hfresh]
      rw [hv]
      exact ⟨rfl, by simp [lastKnownOrFallback], rfl⟩
    · have hv : validateRun st force now env = validateAfterCache st now env := by
        unfold validateRun
        rw [hcache]
        simp [hfresh]
      rw [hv, hbody]
      exact ⟨rfl, rfl, rfl⟩

/-- Witness for C5: a stale cached pro verdict is served unchanged when the
transport fails. -/
theorem offline_fallback_witness :
    (validateRun
      { key := some "ANYRAG-PRO-C5", cache := some { response := proResponse0, timestamp := 0 } }
      false 99999999999
      { transportOk := false, httpOk := true, jsonOk := true, body := { valid := false },
        rsaOk := true }).state =
      { key := some "ANYRAG-PRO-C5", cache := some { response := proResponse0, timestamp := 0 } } :=
  (offline_fallback
    { key := some "ANYRAG-PRO-C5", cache := some { response := proResponse0, timestamp := 0 } }
    false 99999999999
    { transportOk := false, httpOk := true, jsonOk := true, body := { valid := false },
      rsaOk := true }
    "ANYRAG-PRO-C5" rfl (by decide) (by decide)).1

/-- Under a failing network attempt and an empty cache, a validate call
produces one of the two community verdicts the core constructs itself. -/
theorem validateRun_netFail_noCache (st : LMState) (force : Bool) (now : Int) (env : NetEnv)
    (hc : st.cache = none) (hf : fetchFails env = true) :
    (validateRun st force now env).response = noKeyResponse ∨
    (validateRun st force now env).response = fallbackResponse := by
  have hrun : validateRun st force now env = validateAfterCache st now env := by
    unfold validateRun
    rw [hc]
  obtain ⟨e, he⟩ := tryFetchJson_error env hf
  rw [hrun]
  unfold validateAfterCache
  by_cases hk : keyFalsy st.key = true
  · left
    simp [hk]
  · right
    simp [hk, he, hc]

/-- Claim C6 (confirmed): with the local secret store operating normally,
every public entry point resolves rather than propagating an exception —
the exception-passing forms of validateLicense, refreshLicense and
deactivateLicense always return a value, and the remaining entry points are
total catch-all wrappers — and under total network failure with no cache
entry the steady-state checks fall back to community-tier defaults and
activation reports failure instead of throwing. -/
theorem publicApi_resolves (st : LMState) (now : Int) (env : NetEnv) (denv : DeacEnv)
    (k : String) (hdel : denv.deleteOk = true) :
    exceptOk (validateLicense st false now env) = true ∧
    exceptOk (validateLicense st true now env) = true ∧
    exceptOk (refreshLicense st now env) = true ∧
    exceptOk (deactivateLicense st denv) = true ∧
    (env.transportOk = false → st.cache = none →
      getLicenseTier st now env = "community" ∧
      hasProAccess st now env = false ∧
      getFeatures st now env = [] ∧
      (getLicenseInfo st now env).tier = "community" ∧
      (activateLicense k st now env).1.success = false) := by
  refine ⟨?_, ?_, ?_, ?_, ?_⟩
  · rw [validateLicense_ok]
    rfl
  · rw [validateLicense_ok]
    rfl
  · unfold refreshLicense
    rw [validateLicense_ok]
    rfl
  · unfold deactivateLicense
    simp [hdel, exceptOk]
  · intro ht hc
    have hf : fetchFails env = true := by
      unfold fetchFails
      rw [ht]
      rfl
    have hcommon := validateRun_netFail_noCache st false now env hc hf
    refine ⟨?_, ?_, ?_, ?_, ?_⟩
    · rw [getLicenseTier_eq]
      rcases hcommon with h | h <;> rw [h] <;> rfl
    · rw [hasProAccess_eq]
      rcases hcommon with h | h <;> rw [h] <;> rfl
    · rw [getFeatures_eq]
      rcases hcommon with h | h <;> rw [h] <;> rfl
    · rw [getLicenseInfo_eq]
      rcases hcommon with h | h <;> rw [h] <;> rfl
    · unfold activateLicense
      by_cases hpre : k.startsWith "ANYRAG-PRO-" = true
      · have hcommon2 := validateRun_netFail_noCache
          { st with key := some k, cache := none } true now env rfl hf
        rw [hpre]
        rw [validateLicense_ok]
        simp only [Bool.not_true, Bool.false_eq_true, if_false]
        rcases hcommon2 with h | h <;>
          simp [catchAll, Except.map, h, noKeyResponse, fallbackResponse]
      · simp [hpre, catchAll]

/-- Witness for C6: under a transport failure with no cache entry,
hasProAccess resolves to false instead of throwing. -/
theorem publicApi_resolves_witness :
    hasProAccess { key := some "ANYRAG-PRO-C6", cache := none } 0
      { transportOk := false, httpOk := true, jsonOk := true, body := { valid := false },
        rsaOk := true } = false :=
  ((publicApi_resolves { key := some "ANYRAG-PRO-C6", cache := none } 0
      { transportOk := false, httpOk := true, jsonOk := true, body := { valid := false },
        rsaOk := true }
      { transportOk := true, httpOk := true, deleteOk := true, retryDeleteOk := true }
      "ANYRAG-PRO-C6" rfl).2.2.2.2 rfl rfl).2.1

/-- Counterexample to C7: with no stored key, two validate(false) calls one
millisecond apart with no intervening activation or deactivation perform
zero network calls, not exactly one. -/
theorem idempotence_counterexample :
    (validateRun { key := none, cache := none } false 0 env0).fetched = false ∧
    (validateRun (validateRun { key := none, cache := none } false 0 env0).state
      false 1 env0).fetched = false := by decide

/-- Claim C7 as amended: if the first validate(false) call attempts the
network and its transport attempt succeeds, then a second validate(false)
call within the 24-hour TTL with no intervening activate or deactivate
performs no network call and returns the verdict cached by the first call,
so at most one network call is performed across the two calls. -/
theorem idempotence_amended (st : LMState) (env1 env2 : NetEnv) (now1 now2 : Int)
    (h1 : fetchFails env1 = false) (hle : now1 ≤ now2)
    (hlt : now2 - now1 < CACHE_DURATION)
    (hfetch : (validateRun st false now1 env1).fetched = true) :
    (validateRun (validateRun st false now1 env1).state false now2 env2).fetched = false ∧
    (validateRun (validateRun st false now1 env1).state false now2 env2).response =
      (validateRun st false now1 env1).response := by
  have hrun := validateRun_fetched st false now1 env1 hfetch
  have hsave := validateAfterCache_saves st now1 env1 h1
  rw [hrun]
  have hfresh :
      cacheFresh
        { response := (validateAfterCache st now1 env1).response, timestamp := now1 } now2 =
        true := by
    unfold cacheFresh
    exact decide_eq_true hlt
  have h2 : validateRun (validateAfterCache st now1 env1).state false now2 env2 =
      { response := (validateAfterCache st now1 env1).response,
        state := (validateAfterCache st now1 env1).state, fetched := false } := by
    unfold validateRun
    rw [hsave]
    simp [hfresh]
  rw [h2]
  exact ⟨rfl, rfl⟩

/-- Witness for the amended C7 at a concrete run whose first call fetches
and caches a verdict. -/
theorem idempotence_amended_witness :
    (validateRun (validateRun { key := some "ANYRAG-PRO-C7", cache := none } false 0 envC2).state
      false 1 env0).fetched = false :=
  (idempotence_amended { key := some "ANYRAG-PRO-C7", cache := none } envC2 env0 0 1
    rfl (by decide) (by decide) (by decide)).1

/-- Counterexample to C8: in a state with no stored key but a fresh cached
pro verdict, a non-forced validate call returns the cached positive verdict
untouched — nothing negative is written — and getLicenseTier reports pro,
not community. -/
theorem noKey_counterexample :
    getLicenseTier { key := none, cache := some { response := proResponse0, timestamp := 0 } }
      1 env0 = "pro" ∧
    (validateRun { key := none, cache := some { response := proResponse0, timestamp := 0 } }
      false 1 env0).response.valid = true ∧
    (validateRun { key := none, cache := some { response := proResponse0, timestamp := 0 } }
      false 1 env0).state =
      { key := none, cache := some { response := proResponse0, timestamp := 0 } } := by decide

/-- Claim C8 as amended: for every state with no stored license key and no
fresh cache entry, a non-forced validate call returns the negative
community verdict, writes it to the cache, performs no network call, and
getLicenseTier consequently returns community with zero network calls. -/
theorem noKey_community (st : LMState) (now : Int) (env : NetEnv)
    (hk : keyFalsy st.key = true) (hc : cacheIsFresh st.cache now = false) :
    validateRun st false now env =
      { response := noKeyResponse, state := saveCache st noKeyResponse now,
        fetched := false } ∧
    getLicenseTier st now env = "community" := by
  have hrun : validateRun st false now env = validateAfterCache st now env := by
    unfold validateRun
    cases hcc : st.cache with
    | none => rfl
    | some c =>
      rw [hcc] at hc
      have hc2 : cacheFresh c now = false := hc
      simp [hc2]
  have hb : validateAfterCache st now env =
      { response := noKeyResponse, state := saveCache st noKeyResponse now,
        fetched := false } := by
    unfold validateAfterCache
    rw [hk]
    simp
  rw [getLicenseTier_eq, hrun, hb]
  exact ⟨rfl, rfl⟩

/-- Witness for the amended C8 at the empty state. -/
theorem noKey_community_witness :
    validateRun { key := none, cache := none } false 3 env0 =
      { response := noKeyResponse,
        state := saveCache { key := none, cache := none } noKeyResponse 3,
        fetched := false } :=
  (noKey_community { key := none, cache := none } 3 env0 rfl rfl).1

/-- Claim C9 (confirmed): refreshLicense clears the cache before forcing
validation, so from a state with a stored key and a previously cached
positive verdict, a transport failure during refreshLicense yields the
negative community network-error verdict, not the last-known-good cached
verdict: the forced-refresh path forfeits the stale-cache offline
fallback. -/
theorem refresh_forfeits_fallback (st : LMState) (c : CachedValidation) (k : String)
    (now : Int) (env : NetEnv)
    (hc : st.cache = some c) (hpos : c.response.valid = true)
    (hk : st.key = some k) (hk2 : k.isEmpty = false) (hf : fetchFails env = true) :
    refreshLicense st now env =
      Except.ok { response := fallbackResponse, state := { st with cache := none },
                  fetched := true } ∧
    fallbackResponse ≠ c.response := by
  obtain ⟨e, he⟩ := tryFetchJson_error env hf
  have hkey : keyFalsy st.key = false := by
    rw [hk]
    exact hk2
  constructor
  · unfold refreshLicense
    rw [validateLicense_ok]
    have hrun : validateRun { st with cache := none } true now env =
        validateAfterCache { st with cache := none } now env := rfl
    rw [hrun]
    unfold validateAfterCache
    simp [hkey, he]
  · intro heq
    rw [← heq] at hpos
    exact absurd hpos (by decide)

/-- Witness for C9: a concrete refresh under a transport failure discards
the cached pro verdict. -/
theorem refresh_forfeits_fallback_witness :
    refreshLicense
      { key := some "ANYRAG-PRO-C9", cache := some { response := proResponse0, timestamp := 0 } }
      5 { transportOk := false, httpOk := true, jsonOk := true, body := { valid := false },
          rsaOk := true } =
      Except.ok
        { response := fallbackResponse,
          state := { key := some "ANYRAG-PRO-C9", cache := none }, fetched := true } :=
  (refresh_forfeits_fallback
    { key := some "ANYRAG-PRO-C9", cache := some { response := proResponse0, timestamp := 0 } }
    { response := proResponse0, timestamp := 0 } "ANYRAG-PRO-C9" 5
    { transportOk := false, httpOk := true, jsonOk := true, body := { valid := false },
      rsaOk := true }
    rfl rfl rfl (by decide) (by decide)).1

/-- Claim C10 (confirmed): the negative community verdict produced on a
transport failure with no cache entry is returned without being written to
the cache — the state is unchanged — so a subsequent validate call in that
state attempts the network again instead of serving a cached network-error
verdict. -/
theorem netFail_not_cached (st : LMState) (k : String) (force : Bool) (now now2 : Int)
    (env env2 : NetEnv)
    (hk : st.key = some k) (hk2 : k.isEmpty = false) (hc : st.cache = none)
    (hf : fetchFails env = true) :
    validateRun st force now env =
      { response := fallbackResponse, state := st, fetched := true } ∧
    (validateRun (validateRun st force now env).state false now2 env2).fetched = true := by
  obtain ⟨e, he⟩ := tryFetchJson_error env hf
  have hkey : keyFalsy st.key = false := by
    rw [hk]
    exact hk2
  have h1 : validateRun st force now env =
      { response := fallbackResponse, state := st, fetched := true } := by
    unfold validateRun
    rw [hc]
    unfold validateAfterCache
    simp [hkey, he, hc]
  refine ⟨h1, ?_⟩
  rw [h1]
  unfold validateRun
  rw [hc]
  unfold validateAfterCache
  cases hfj : tryFetchJson env2 with
  | ok r =>
    simp only [hkey, Bool.false_eq_true, if_false, hfj]
    split <;> rfl
  | error e2 =>
    simp [hkey, hfj, hc]

/-- Witness for C10: after a concrete failed call with an empty cache, the
next call attempts the network. -/
theorem netFail_not_cached_witness :
    (validateRun
      (validateRun { key := some "ANYRAG-PRO-C10", cache := none } false 0
        { transportOk := false, httpOk := true, jsonOk := true, body := { valid := false },
          rsaOk := true }).state
      false 2 env0).fetched = true :=
  (netFail_not_cached { key := some "ANYRAG-PRO-C10", cache := none } "ANYRAG-PRO-C10"
    false 0 2
    { transportOk := false, httpOk := true, jsonOk := true, body := { valid := false },
      rsaOk := true }
    env0 rfl (by decide) rfl (by decide)).2
